import Mathlib

/-!
Verification of the `api-client` request/response pipeline (`src/lib.rs`).

The development shallowly embeds the library's data model and its single
pipeline operation `Api::request` (lib.rs lines 174-190), together with the
shapes of the methods generated by the `api!` macro (the `StatusCode` and
`Json<T>` result arms). Rust's `&mut self` receiver is modelled by explicit
state passing (a state type `σ` threaded through the call), fallible Rust
`Result` values by `Except`, and the network effects of one call by an
explicit event trace (`Event`) returned alongside the result, recording each
invocation of the transport's `send` and of the `post_response` hook.
-/

namespace ApiClient

/-- HTTP verbs, standing in for `reqwest::Method`. -/
inductive Method where
  | GET
  | POST
  | PUT
  | PATCH
  | DELETE
  | HEAD
  | OPTIONS
deriving DecidableEq

/-- A pre-built multipart form (`reqwest::multipart::Form`), opaque to the
pipeline; we model it as its already-encoded payload. -/
structure MultipartForm where
  encoded : String
deriving DecidableEq

/-- The body held by a request draft. `reqwest`'s builder stores either no
body, serialized JSON bytes, serialized form bytes, or a multipart form; the
variant tag carries the implied content type. -/
inductive ReqBody where
  | empty
  | jsonBytes (data : String)
  | formBytes (data : String)
  | multipartForm (f : MultipartForm)
deriving DecidableEq

/-- A not-yet-sent request draft (`reqwest::RequestBuilder`): method, URL,
headers and body. -/
structure RequestBuilder where
  method : Method
  url : String
  headers : List (String × String)
  body : ReqBody
deriving DecidableEq

/-- A received HTTP response (`reqwest::Response`): numeric status, the
request URL it answers, and the response body. -/
structure Response where
  status : Nat
  url : String
  body : String
deriving DecidableEq

/-- The single failure value of one call (`reqwest::Error` /
`ClientError`), distinguishing the error kinds of the pipeline:
errors raised deliberately by a consumer's hook (`hook`, the tag models the
identity of the particular error value the hook built), transport-level
failures (`transport`), body-read failures (`bodyRead`), JSON decode
failures carrying the request URL and raw status for context (`decode`),
and the fatal outcome of the unimplemented default factory
(`panicUnimplemented`). -/
inductive Err where
  | hook (tag : Nat)
  | transport (msg : String)
  | bodyRead (msg : String)
  | decode (url : String) (status : Nat)
  | panicUnimplemented
deriving DecidableEq

/-- The injected HTTP transport (`ClientType`, i.e. `reqwest::Client`),
specified at its boundary: it can send a finished draft and produce a
response or a transport error. -/
structure ClientType where
  send : RequestBuilder → Except Err Response

/-- Building a fresh draft on a transport: `client.request(method, url)`
yields a draft holding exactly the method and URL, with no headers and no
body attached yet. -/
def ClientType.request (_c : ClientType) (m : Method) (u : String) : RequestBuilder :=
  { method := m, url := u, headers := [], body := ReqBody.empty }

/-- The externally supplied serialization capability (`serde::Serialize`):
how to render a payload of type `α` as JSON bytes or as URL-encoded form
bytes. -/
structure Serialize (α : Type) where
  toJson : α → String
  toForm : α → String

/-- `RequestBuilder::json`: serialize the payload into the draft as a JSON
body. -/
def RequestBuilder.json {α : Type} (r : RequestBuilder) (ser : Serialize α) (a : α) :
    RequestBuilder :=
  { r with body := ReqBody.jsonBytes (ser.toJson a) }

/-- `RequestBuilder::form`: serialize the payload into the draft as a
URL-encoded form body. -/
def RequestBuilder.form {α : Type} (r : RequestBuilder) (ser : Serialize α) (a : α) :
    RequestBuilder :=
  { r with body := ReqBody.formBytes (ser.toForm a) }

/-- `RequestBuilder::multipart`: replace the draft's body wholesale with the
supplied pre-built multipart form. -/
def RequestBuilder.multipart (r : RequestBuilder) (f : MultipartForm) : RequestBuilder :=
  { r with body := ReqBody.multipartForm f }

/-- The `Body` enum (lib.rs lines 42-55): how the payload of one call is
attached to the outgoing request. -/
inductive Body (α : Type) where
  | none
  | json (a : α)
  | form (a : α)
  | multipart (f : MultipartForm)

/-- The default `Api::pre_request` (lib.rs lines 102-105): returns the draft
unmodified, wrapped in `Ok`. It takes `&self`, so it is given the state but
returns none. -/
def defaultPreRequest {σ : Type} (_s : σ) (request : RequestBuilder) :
    Except Err RequestBuilder :=
  Except.ok request

/-- The default `Api::post_response` (lib.rs lines 145-147): returns the
response unmodified. It takes `&mut self`, modelled as returning the
(unchanged) state alongside the response. -/
def defaultPostResponse {σ : Type} (s : σ) (response : Response) : Response × σ :=
  (response, s)

/-- The default `Api::new` (lib.rs lines 164-169): `unimplemented!()`, a
fatal panic; modelled as an `Except` that never holds a client instance. -/
def defaultNew (σ : Type) : Except Err σ :=
  Except.error Err.panicUnimplemented

/-- The `Api` trait (lib.rs lines 63-191) over a client-state type `σ`:
the transport accessor and the two extension hooks, with the trait's default
hook implementations as defaults. `pre_request` takes `&self` (shared
access: it receives the state but cannot return a new one), `post_response`
takes `&mut self` (it returns the possibly-updated state). -/
structure Api (σ : Type) where
  client : σ → ClientType
  pre_request : σ → RequestBuilder → Except Err RequestBuilder := defaultPreRequest
  post_response : σ → Response → Response × σ := defaultPostResponse

/-- Observable effects of one call through the pipeline: a draft handed to
the transport's `send`, and an invocation of `post_response` on a raw
transport response. -/
inductive Event where
  | sent (draft : RequestBuilder)
  | posted (raw : Response)
deriving DecidableEq

/-- The body-attachment match block of `Api::request` (lib.rs lines
181-188): `None` leaves the draft unchanged, `Json`/`Form` serialize the
payload into it, `Multipart` replaces the body wholesale. -/
def attachBody {α : Type} (request : RequestBuilder) (body : Body α) (ser : Serialize α) :
    RequestBuilder :=
  match body with
  | Body.none => request
  | Body.json b => request.json ser b
  | Body.form b => request.form ser b
  | Body.multipart f => request.multipart f

/-- `Api::request` (lib.rs lines 174-190): build a draft from the method and
URL on `self.client()`, run `pre_request` on it (propagating its error with
`?`), attach the body, send, and map `post_response` over the successful
send. Returns the call's result, the final client state, and the trace of
transport/hook events. -/
def Api.request {σ α : Type} (api : Api σ) (s : σ) (method : Method) (url : String)
    (body : Body α) (ser : Serialize α) :
    Except Err Response × σ × List Event :=
  match api.pre_request s ((api.client s).request method url) with
  | Except.error e => (Except.error e, s, [])
  | Except.ok request =>
    let request := attachBody request body ser
    match (api.client s).send request with
    | Except.error e => (Except.error e, s, [Event.sent request])
    | Except.ok r =>
      let rs := api.post_response s r
      (Except.ok rs.1, rs.2, [Event.sent request, Event.posted r])

/-- The Request Pipeline as the specification words it (spec section 4.2):
step 1 build a draft from method and url on the transport obtained via
`client()`; step 2 invoke `pre_request`, on failure propagate the error and
stop with no bytes sent; step 3 attach the body per the `Body` variant;
step 4 send, the sole network I/O, propagating transport failure unchanged;
step 5 on successful send invoke `post_response` and use its return value
as the effective response; step 6 return the effective response. -/
def executeSpec {σ α : Type} (client : Api σ) (s : σ) (method : Method) (url : String)
    (body : Body α) (ser : Serialize α) :
    Except Err Response × σ × List Event :=
  let draft := (client.client s).request method url
  match client.pre_request s draft with
  | Except.error e => (Except.error e, s, [])
  | Except.ok draft1 =>
    let draft2 :=
      match body with
      | Body.none => draft1
      | Body.json b => draft1.json ser b
      | Body.form b => draft1.form ser b
      | Body.multipart f => draft1.multipart f
    match (client.client s).send draft2 with
    | Except.error e => (Except.error e, s, [Event.sent draft2])
    | Except.ok response =>
      let effective := client.post_response s response
      (Except.ok effective.1, effective.2, [Event.sent draft2, Event.posted response])

/-- Number of `send` invocations recorded in a trace. -/
def countSent (ev : List Event) : Nat :=
  ev.countP fun e =>
    match e with
    | Event.sent _ => true
    | Event.posted _ => false

/-- The `StatusCode` result arm of the `api!` macro (lib.rs lines 340-348,
and with a body lines 260-268): `self.request(...).await.map(|res|
res.status())`. -/
def statusCodeMethod {σ α : Type} (api : Api σ) (s : σ) (method : Method) (url : String)
    (body : Body α) (ser : Serialize α) : Except Err Nat × σ × List Event :=
  let out := api.request s method url body ser
  (out.1.map Response.status, out.2.1, out.2.2)

/-- Modelled from the spec: `reqwest::Response::json::<T>` is external
transport/codec capability, absent from src/. Per spec sections 4.3 and 6 it
deserializes the body as `T` and on failure yields a decode error reported
with enough context (endpoint, raw status code) to be diagnosable. -/
def Response.jsonDecode {T : Type} (r : Response) (deser : String → Option T) :
    Except Err T :=
  match deser r.body with
  | some v => Except.ok v
  | none => Except.error (Err.decode r.url r.status)

/-- The `Json<T>` result arm of the `api!` macro (lib.rs lines 370-378):
`self.request(...).await?.json().await` — a pipeline error propagates via
`?`, otherwise the effective response is JSON-decoded. -/
def jsonResultMethod {σ α T : Type} (api : Api σ) (s : σ) (method : Method) (url : String)
    (body : Body α) (ser : Serialize α) (deser : String → Option T) :
    Except Err T × σ × List Event :=
  let out := api.request s method url body ser
  (match out.1 with
   | Except.error e => Except.error e
   | Except.ok resp => resp.jsonDecode deser, out.2.1, out.2.2)

end ApiClient

namespace ApiClient

/-! ### Concrete fixtures used by the witness theorems -/

/-- A serializer for `Unit` payloads (the `()` instantiation the macro uses
for body-less endpoints). -/
def unitSer : Serialize Unit :=
  { toJson := fun _ => "null", toForm := fun _ => "" }

/-- A serializer for `Nat` payloads. -/
def natSer : Serialize Nat :=
  { toJson := fun n => toString n, toForm := fun n => toString n }

/-- A transport whose every send yields status 200 at URL `orig` with body
`no`. -/
def okTransport : ClientType :=
  { send := fun _ => Except.ok { status := 200, url := "orig", body := "no" } }

/-- A transport that always fails with a connection error. -/
def downTransport : ClientType :=
  { send := fun _ => Except.error (Err.transport "down") }

/-- A transport whose every send yields status 500 at URL `endpoint` with a
body that is not valid JSON for the expected type. -/
def badJsonTransport : ClientType :=
  { send := fun _ => Except.ok { status := 500, url := "endpoint", body := "oops" } }

/-- A transport whose every send yields status 404. -/
def notFoundTransport : ClientType :=
  { send := fun _ => Except.ok { status := 404, url := "endpoint", body := "missing" } }

/-- A client (state `Nat`) with default hooks whose `pre_request` always
fails with the consumer error tagged 7. -/
def failPreApi : Api Nat :=
  { client := fun _ => okTransport
    pre_request := fun _ _ => Except.error (Err.hook 7) }

/-- A client whose `pre_request` fails deliberately with a tag recording
whether the draft it was handed already carried a body (tag 1) or not
(tag 0). -/
def probeBodyApi : Api Nat :=
  { client := fun _ => okTransport
    pre_request := fun _ draft =>
      Except.error (Err.hook (match draft.body with
        | ReqBody.empty => 0
        | _ => 1)) }

/-- The synthetic response substituted by `substApi`'s `post_response`. -/
def synthResponse : Response :=
  { status := 201, url := "synth", body := "42" }

/-- A client whose `post_response` discards the received response,
substitutes `synthResponse`, and bumps its state counter. -/
def substApi : Api Nat :=
  { client := fun _ => okTransport
    post_response := fun s _ => (synthResponse, s + 1) }

/-- A client with default hooks over the failing transport. -/
def downApi : Api Nat :=
  { client := fun _ => downTransport }

/-- A client with default hooks over the bad-JSON transport. -/
def badJsonApi : Api Nat :=
  { client := fun _ => badJsonTransport }

/-- A client with default hooks over the 404 transport. -/
def notFoundApi : Api Nat :=
  { client := fun _ => notFoundTransport }

/-- A toy JSON deserializer for `Nat` results: only the body `42` decodes. -/
def decodeNat : String → Option Nat :=
  fun str => if str = "42" then some 42 else none

/-! ### Run equations for the three paths of `Api.request` -/

/-- If `pre_request` fails on the freshly built draft, the run aborts with
that error, the state untouched and the trace empty. -/
theorem request_pre_error_eq {σ α : Type} (api : Api σ) (s : σ) (m : Method) (url : String)
    (body : Body α) (ser : Serialize α) (e : Err)
    (h : api.pre_request s ((api.client s).request m url) = Except.error e) :
    api.request s m url body ser = (Except.error e, s, []) := by
  unfold Api.request
  rw [h]

/-- If `pre_request` succeeds but the transport fails, the run returns the
transport error, the state untouched, and the trace records the one send. -/
theorem request_send_error_eq {σ α : Type} (api : Api σ) (s : σ) (m : Method) (url : String)
    (body : Body α) (ser : Serialize α) (d : RequestBuilder) (e : Err)
    (hpre : api.pre_request s ((api.client s).request m url) = Except.ok d)
    (hsend : (api.client s).send (attachBody d body ser) = Except.error e) :
    api.request s m url body ser =
      (Except.error e, s, [Event.sent (attachBody d body ser)]) := by
  unfold Api.request
  rw [hpre]
  dsimp only
  rw [hsend]

/-- If `pre_request` succeeds and the transport delivers `raw`, the run
returns `post_response`'s effective response and updated state, and the
trace records the send followed by the `post_response` invocation. -/
theorem request_ok_eq {σ α : Type} (api : Api σ) (s : σ) (m : Method) (url : String)
    (body : Body α) (ser : Serialize α) (d : RequestBuilder) (raw : Response)
    (hpre : api.pre_request s ((api.client s).request m url) = Except.ok d)
    (hsend : (api.client s).send (attachBody d body ser) = Except.ok raw) :
    api.request s m url body ser =
      (Except.ok (api.post_response s raw).1, (api.post_response s raw).2,
       [Event.sent (attachBody d body ser), Event.posted raw]) := by
  unfold Api.request
  rw [hpre]
  dsimp only
  rw [hsend]

end ApiClient

namespace ApiClient

/-! ### Claim theorems -/

/-- C1: `request` executes the pipeline in the specified order — it builds
a draft from the method and url on the transport returned by `client()`,
invokes `pre_request` on that draft, attaches the body to the possibly
modified draft per the `Body` variant, sends exactly once, and returns the
value produced by `post_response` on the received response; formalised as
equality with `executeSpec`, the pipeline written from the spec's steps,
together with the trace holding exactly one send whenever `pre_request`
succeeds and none otherwise. -/
theorem request_follows_spec_pipeline {σ α : Type} (api : Api σ) (s : σ) (m : Method)
    (url : String) (body : Body α) (ser : Serialize α) :
    api.request s m url body ser = executeSpec api s m url body ser ∧
    countSent (api.request s m url body ser).2.2 =
      (match api.pre_request s ((api.client s).request m url) with
       | Except.error _ => 0
       | Except.ok _ => 1) := by
  constructor
  · rfl
  · cases hpre : api.pre_request s ((api.client s).request m url) with
    | error e =>
      rw [request_pre_error_eq api s m url body ser e hpre]
      rfl
    | ok d =>
      cases hsend : (api.client s).send (attachBody d body ser) with
      | error e =>
        rw [request_send_error_eq api s m url body ser d e hpre hsend]
        rfl
      | ok raw =>
        rw [request_ok_eq api s m url body ser d raw hpre hsend]
        rfl

/-- C2: if `pre_request` fails, `request` returns that same error unchanged
as the failure of the whole call, the client state is untouched, and the
trace is empty — no send is invoked on the transport. -/
theorem pre_request_error_aborts {σ α : Type} (api : Api σ) (s : σ) (m : Method)
    (url : String) (body : Body α) (ser : Serialize α) (e : Err)
    (h : api.pre_request s ((api.client s).request m url) = Except.error e) :
    api.request s m url body ser = (Except.error e, s, []) ∧
    countSent (api.request s m url body ser).2.2 = 0 := by
  refine ⟨request_pre_error_eq api s m url body ser e h, ?_⟩
  rw [request_pre_error_eq api s m url body ser e h]
  rfl

/-- C2 witness: with a client whose `pre_request` fails with the hook error
tagged 7, the whole call fails with that very error and sends nothing. -/
theorem pre_request_error_aborts_witness :
    failPreApi.request 0 Method.GET "u" (Body.none : Body Unit) unitSer =
      (Except.error (Err.hook 7), 0, []) ∧
    countSent (failPreApi.request 0 Method.GET "u" (Body.none : Body Unit) unitSer).2.2 = 0 :=
  pre_request_error_aborts failPreApi 0 Method.GET "u" Body.none unitSer (Err.hook 7) rfl

/-- C3: whenever the transport delivers a raw response, the value the
pipeline hands to result decoding is exactly the value returned by
`post_response` on it — the successful result of `request` is
`post_response`'s output, and the generated `Json<T>` method decodes that
output, not the original transport response. -/
theorem decoding_consumes_post_response_value {σ α T : Type} (api : Api σ) (s : σ)
    (m : Method) (url : String) (body : Body α) (ser : Serialize α)
    (deser : String → Option T) (d : RequestBuilder) (raw : Response)
    (hpre : api.pre_request s ((api.client s).request m url) = Except.ok d)
    (hsend : (api.client s).send (attachBody d body ser) = Except.ok raw) :
    (api.request s m url body ser).1 = Except.ok (api.post_response s raw).1 ∧
    (jsonResultMethod api s m url body ser deser).1 =
      ((api.post_response s raw).1).jsonDecode deser := by
  have hreq := request_ok_eq api s m url body ser d raw hpre hsend
  constructor
  · rw [hreq]
  · show (match (api.request s m url body ser).1 with
      | Except.error e => Except.error e
      | Except.ok resp => resp.jsonDecode deser) =
      ((api.post_response s raw).1).jsonDecode deser
    rw [hreq]

/-- C3 witness: `substApi`'s `post_response` replaces the transport's
response (status 200 at `orig`, body `no`) with `synthResponse`; the call
returns the substitute and the `Json` method decodes the substitute's body
`42` successfully. -/
theorem decoding_consumes_post_response_value_witness :
    (substApi.request 0 Method.GET "u" (Body.none : Body Unit) unitSer).1 =
      Except.ok (substApi.post_response 0 { status := 200, url := "orig", body := "no" }).1 ∧
    (jsonResultMethod substApi 0 Method.GET "u" (Body.none : Body Unit) unitSer decodeNat).1 =
      ((substApi.post_response 0 { status := 200, url := "orig", body := "no" }).1).jsonDecode
        decodeNat :=
  decoding_consumes_post_response_value substApi 0 Method.GET "u" Body.none unitSer decodeNat
    { method := Method.GET, url := "u", headers := [], body := ReqBody.empty }
    { status := 200, url := "orig", body := "no" } rfl rfl

end ApiClient

namespace ApiClient

/-- C4 counterexample: the draft passed to `pre_request` does NOT already
have the body attached. `probeBodyApi`'s `pre_request` fails with tag 1 if
the draft it receives carries a body and tag 0 if the body slot is empty;
calling with a `Json` body (whose attachment visibly changes the draft's
body slot, second conjunct) still yields tag 0 — `pre_request` observed a
draft with no body. -/
theorem pre_request_body_probe :
    (probeBodyApi.request 0 Method.POST "u" (Body.json 5) natSer).1 =
      Except.error (Err.hook 0) ∧
    (attachBody ((probeBodyApi.client 0).request Method.POST "u") (Body.json (5 : Nat))
        natSer).body ≠ ReqBody.empty :=
  ⟨rfl, by decide⟩

/-- C4 (amended): `pre_request` is given the not-yet-sent draft consisting
of the method, URL and (empty) headers only — the body is not yet attached;
the body is attached afterwards to the draft `pre_request` returns, and the
rest of the call proceeds on that draft. -/
theorem pre_request_receives_bodyless_draft {σ α : Type} (api : Api σ) (s : σ)
    (m : Method) (url : String) (body : Body α) (ser : Serialize α) :
    ((api.client s).request m url).body = ReqBody.empty ∧
    api.request s m url body ser =
      (match api.pre_request s
          { method := m, url := url, headers := [], body := ReqBody.empty } with
       | Except.error e => (Except.error e, s, [])
       | Except.ok d =>
         match (api.client s).send (attachBody d body ser) with
         | Except.error e => (Except.error e, s, [Event.sent (attachBody d body ser)])
         | Except.ok r =>
           (Except.ok (api.post_response s r).1, (api.post_response s r).2,
            [Event.sent (attachBody d body ser), Event.posted r])) := by
  refine ⟨rfl, ?_⟩
  cases hpre : api.pre_request s
      { method := m, url := url, headers := [], body := ReqBody.empty } with
  | error e => exact request_pre_error_eq api s m url body ser e hpre
  | ok d =>
    dsimp only
    cases hsend : (api.client s).send (attachBody d body ser) with
    | error e =>
      rw [request_send_error_eq api s m url body ser d e hpre hsend]
    | ok r =>
      rw [request_ok_eq api s m url body ser d r hpre hsend]

/-- C5: the generated `StatusCode` method returns exactly the numeric
status of the `post_response`-effective response whenever the pipeline
succeeds — with no error raised from the status value itself — and the
status is independent of the response body's content. -/
theorem statusCode_matches_response_status {σ α : Type} (api : Api σ) (s : σ)
    (m : Method) (url : String) (body : Body α) (ser : Serialize α) (r : Response)
    (h : (api.request s m url body ser).1 = Except.ok r) :
    (statusCodeMethod api s m url body ser).1 = Except.ok r.status ∧
    ∀ b : String, Response.status { r with body := b } = r.status := by
  refine ⟨?_, fun b => rfl⟩
  show (api.request s m url body ser).1.map Response.status = Except.ok r.status
  rw [h]
  rfl

/-- C5 witness: against a transport answering 404, the `StatusCode` method
returns 404 as a success, not an error. -/
theorem statusCode_matches_response_status_witness :
    (statusCodeMethod notFoundApi 0 Method.GET "u" (Body.none : Body Unit) unitSer).1 =
      Except.ok 404 ∧
    ∀ b : String,
      Response.status { status := 404, url := "endpoint", body := b } = 404 :=
  statusCode_matches_response_status notFoundApi 0 Method.GET "u" Body.none unitSer
    { status := 404, url := "endpoint", body := "missing" } rfl

/-- C6: when the pipeline succeeds but the effective response's body does
not deserialize as `T`, the generated `Json<T>` method returns the decode
error as the terminal outcome of the call — never a defaulted value — and
the error carries the endpoint URL and the raw status code of the
response. -/
theorem json_decode_failure_is_terminal {σ α T : Type} (api : Api σ) (s : σ)
    (m : Method) (url : String) (body : Body α) (ser : Serialize α)
    (deser : String → Option T) (r : Response)
    (h : (api.request s m url body ser).1 = Except.ok r)
    (hd : deser r.body = none) :
    (jsonResultMethod api s m url body ser deser).1 =
      Except.error (Err.decode r.url r.status) := by
  show (match (api.request s m url body ser).1 with
    | Except.error e => Except.error e
    | Except.ok resp => resp.jsonDecode deser) =
    Except.error (Err.decode r.url r.status)
  rw [h]
  show r.jsonDecode deser = Except.error (Err.decode r.url r.status)
  unfold Response.jsonDecode
  rw [hd]

/-- C6 witness: against a transport answering status 500 at `endpoint` with
the undecodable body `oops`, the `Json` method fails with the decode error
naming that endpoint and status. -/
theorem json_decode_failure_is_terminal_witness :
    (jsonResultMethod badJsonApi 0 Method.GET "u" (Body.none : Body Unit) unitSer
        decodeNat).1 =
      Except.error (Err.decode "endpoint" 500) :=
  json_decode_failure_is_terminal badJsonApi 0 Method.GET "u" Body.none unitSer decodeNat
    { status := 500, url := "endpoint", body := "oops" } rfl rfl

/-- C7: if the transport send fails, `request` returns that transport error
unchanged, the client state is not modified, and `post_response` is not
invoked (no `posted` event in the trace) — while the send was attempted
exactly once. -/
theorem transport_error_propagates {σ α : Type} (api : Api σ) (s : σ) (m : Method)
    (url : String) (body : Body α) (ser : Serialize α) (d : RequestBuilder) (e : Err)
    (hpre : api.pre_request s ((api.client s).request m url) = Except.ok d)
    (hsend : (api.client s).send (attachBody d body ser) = Except.error e) :
    api.request s m url body ser =
      (Except.error e, s, [Event.sent (attachBody d body ser)]) ∧
    ∀ r : Response, Event.posted r ∉ (api.request s m url body ser).2.2 := by
  have hreq := request_send_error_eq api s m url body ser d e hpre hsend
  refine ⟨hreq, fun r hmem => ?_⟩
  rw [hreq] at hmem
  simp only [List.mem_singleton] at hmem
  exact Event.noConfusion hmem

/-- C7 witness: against a transport that fails with a connection error, the
call fails with that very error, the state stays 0 and `post_response` is
never invoked. -/
theorem transport_error_propagates_witness :
    downApi.request 0 Method.GET "u" (Body.none : Body Unit) unitSer =
      (Except.error (Err.transport "down"), 0,
       [Event.sent (attachBody ((downApi.client 0).request Method.GET "u")
          (Body.none : Body Unit) unitSer)]) ∧
    ∀ r : Response,
      Event.posted r ∉ (downApi.request 0 Method.GET "u" (Body.none : Body Unit) unitSer).2.2 :=
  transport_error_propagates downApi 0 Method.GET "u" Body.none unitSer
    { method := Method.GET, url := "u", headers := [], body := ReqBody.empty }
    (Err.transport "down") rfl rfl

end ApiClient

namespace ApiClient

/-- C8: the default implementations of the two hooks are identities — the
default `pre_request` returns the draft unmodified wrapped in `Ok`, and the
default `post_response` returns the same response with the client state
unchanged. -/
theorem default_hooks_are_identities {σ : Type} (s : σ) (d : RequestBuilder)
    (r : Response) :
    defaultPreRequest s d = Except.ok d ∧ defaultPostResponse s r = (r, s) :=
  ⟨rfl, rfl⟩

/-- C9: the default `new()` of the client contract fails fatally — for any
client-state type it yields the `unimplemented` panic outcome and never
returns a client instance normally. -/
theorem default_new_fails_fatally (σ : Type) :
    defaultNew σ = Except.error Err.panicUnimplemented ∧
    ∀ s : σ, defaultNew σ ≠ Except.ok s :=
  ⟨rfl, fun _ h => nomatch h⟩

/-- C10: `pre_request` has only shared access to the client (its type gives
it the state but it returns none), so a run either leaves the state exactly
as it was with `post_response` never invoked, or the final state is
precisely the state produced by `post_response` (the sole holder of mutable
access) on the raw response recorded in the trace. -/
theorem state_changes_only_via_post_response {σ α : Type} (api : Api σ) (s : σ)
    (m : Method) (url : String) (body : Body α) (ser : Serialize α) :
    ((api.request s m url body ser).2.1 = s ∧
      ∀ r : Response, Event.posted r ∉ (api.request s m url body ser).2.2) ∨
    (∃ raw : Response, Event.posted raw ∈ (api.request s m url body ser).2.2 ∧
      (api.request s m url body ser).2.1 = (api.post_response s raw).2) := by
  cases hpre : api.pre_request s ((api.client s).request m url) with
  | error e =>
    left
    rw [request_pre_error_eq api s m url body ser e hpre]
    exact ⟨rfl, fun r hmem => (List.not_mem_nil _ hmem)⟩
  | ok d =>
    cases hsend : (api.client s).send (attachBody d body ser) with
    | error e =>
      left
      rw [request_send_error_eq api s m url body ser d e hpre hsend]
      refine ⟨rfl, fun r hmem => ?_⟩
      simp only [List.mem_singleton] at hmem
      exact Event.noConfusion hmem
    | ok raw =>
      right
      rw [request_ok_eq api s m url body ser d raw hpre hsend]
      exact ⟨raw, by simp, rfl⟩

end ApiClient
